import Mathlib

/-!
# Verification of the `employee_cabinet` access-control core

A shallow embedding of the access-control subsystem of the
`employee_cabinet` application:

* `app/modules/access/service.py` — `AccessService` (`has_access`,
  `grant_access`, `revoke_access`, `get_user_permissions`) over the `ACL`
  rows of `app/modules/access/models_sql.py`;
* `app/modules/objects/models.py` — `ObjectAccess.has_section_access` and
  the `DEPARTMENT_SECTION_MAP` table;
* `app/modules/objects/schemas.py` — the `sections_access` pydantic
  validators of `ObjectAccessCreate` / `ObjectAccessUpdate`;
* `app/modules/objects/service.py` — `ObjectService.grant_access`,
  `update_access`, `revoke_access`, `can_manage_access`.

The SQLAlchemy store is modelled as a Lean list of rows; a `.first()` /
`.any` query over a filter becomes `List.find?` / `List.any` with the
same predicate.  Two pieces of SQLAlchemy semantics matter and are kept
faithfully:

* comparing a column with the Python value `None` (`Column == None`)
  compiles to `column IS NULL`, which is *true* on rows where the column
  is unset — not "no match";
* the ORM `User` class (`app/modules/auth/models.py`) has **no**
  `department` attribute (only `department_id` and the `department_rel`
  relationship), so `getattr(user, 'department', None)` always yields
  `None` and the department arm of the matcher is always
  `acls.department IS NULL`.
-/

namespace EmployeeCabinet

/-! ## Enumerations (`core/constants.py`, `modules/access/models_sql.py`,
`modules/objects/models.py`) -/

/-- `UserRole` from `core/constants.py`. -/
inductive UserRole where
  | admin
  | accountant
  | hr
  | engineer
  | lawyer
  | safety
  | employee
deriving DecidableEq, Repr

/-- `ACLEffect` from `modules/access/models_sql.py`. -/
inductive ACLEffect where
  | allow
  | deny
deriving DecidableEq, Repr

/-- `PermissionType` from `modules/access/models_sql.py`. -/
inductive PermissionType where
  | read
  | write
  | delete
  | create
  | admin
deriving DecidableEq, Repr

/-- `ObjectAccessRole` from `modules/objects/models.py`. -/
inductive ObjectAccessRole where
  | owner
  | admin
  | editor
  | viewer
deriving DecidableEq, Repr

/-! ## Data model -/

/-- The `ACL` row of `modules/access/models_sql.py` (the autoincrement
`id` is never consulted by the access logic and is omitted). -/
structure ACL where
  resource_type : String
  resource_id : Int
  user_id : Option Int
  role : Option UserRole
  department : Option String
  position : Option String
  location : Option String
  object_id : Option Int
  permission : PermissionType
  effect : ACLEffect
  created_by : Option Int := none
  description : Option String := none
deriving DecidableEq, Repr

/-- The fields of the ORM `User` (`modules/auth/models.py`) that the
access logic reads.  `departmentName` models `department_rel.name`
(`none` when the user has no `department_rel`).  There is deliberately
no `department` field: the ORM class defines none. -/
structure User where
  id : Int
  role : UserRole
  position : Option String := none
  location : Option String := none
  object_id : Option Int := none
  departmentName : Option String := none
deriving DecidableEq, Repr

/-- The `ObjectAccess` row of `modules/objects/models.py` (fields the
verified operations read). -/
structure ObjectAccess where
  object_id : Int
  user_id : Int
  role : ObjectAccessRole
  sections_access : Option (List String)
  granted_by : Option Int := none
deriving DecidableEq, Repr

/-- The `Object` row of `modules/objects/models.py` (fields the verified
operations read). -/
structure ObjectRow where
  id : Int
  created_by : Int
deriving DecidableEq, Repr

/-! ## `AccessService` (`modules/access/service.py`) -/

/-- `AccessService.ROLE_HIERARCHY` with the `.get(user.role, [user.role])`
default applied: `EMPLOYEE ↦ [EMPLOYEE]`, `ADMIN ↦ [ADMIN, EMPLOYEE]`,
every other role to itself. -/
def roleHierarchy : UserRole → List UserRole
  | .employee => [.employee]
  | .admin => [.admin, .employee]
  | r => [r]

/-- SQL semantics of SQLAlchemy `column == value` where `value` is a
Python optional: `column == None` compiles to `column IS NULL` (true
exactly on unset columns), `column == v` to an equality that an unset
(NULL) column never satisfies. -/
def sqlEq {α : Type} [BEq α] (column value : Option α) : Bool :=
  match value with
  | none => column == none
  | some v => column == some v

/-- The `or_(...)` subject filter shared by the DENY and the ALLOW query
of `AccessService.has_access` (and by `get_user_permissions`): the row
matches when its `user_id` equals the subject id, or its `role` lies in
the hierarchy-expanded role set, or its `department` / `position` /
`location` / `object_id` column stands in the SQL `==` relation with the
corresponding subject attribute.  `getattr(user, 'department', None)` is
always `None` because the ORM `User` has no `department` attribute. -/
def subjectOr (uid : Int) (u : User) (e : ACL) : Bool :=
  e.user_id == some uid
    || (match e.role with
        | some r => (roleHierarchy u.role).contains r
        | none => false)
    || sqlEq e.department none
    || sqlEq e.position u.position
    || sqlEq e.location u.location
    || sqlEq e.object_id u.object_id

/-- The full row filter of the DENY query of `has_access`. -/
def denyFilter (u : User) (resource_type : String) (resource_id : Int)
    (permission : PermissionType) (e : ACL) : Bool :=
  e.resource_type == resource_type && e.resource_id == resource_id
    && e.permission == permission && e.effect == ACLEffect.deny
    && subjectOr u.id u e

/-- The full row filter of the ALLOW query of `has_access`. -/
def allowFilter (u : User) (resource_type : String) (resource_id : Int)
    (permission : PermissionType) (e : ACL) : Bool :=
  e.resource_type == resource_type && e.resource_id == resource_id
    && e.permission == permission && e.effect == ACLEffect.allow
    && subjectOr u.id u e

/-- The store-evaluation part of `AccessService.has_access` (after the
cache lookup): if the DENY query finds a row the result is `false`
without consulting ALLOW rows; otherwise the result is whether the ALLOW
query finds a row. -/
def evalRules (rules : List ACL) (u : User) (resource_type : String)
    (resource_id : Int) (permission : PermissionType) : Bool :=
  if rules.any (denyFilter u resource_type resource_id permission) then
    false
  else
    rules.any (allowFilter u resource_type resource_id permission)

/-- `AccessService.has_access`.  `cached` is the value
`_check_from_cache` returns (`none` when there is no redis client, the
key is absent, or the cache read raised — all three are folded to `None`
by the source).  On a cache hit the cached verdict is returned as is;
on a miss the rule store is evaluated.  (The best-effort `_set_cache`
write does not affect the returned value and is not modelled.) -/
def hasAccess (cached : Option Bool) (rules : List ACL) (u : User)
    (resource_type : String) (resource_id : Int)
    (permission : PermissionType) : Bool :=
  match cached with
  | some b => b
  | none => evalRules rules u resource_type resource_id permission

/-- `AccessService.has_access` with the fallibility of the rule store
made explicit: the two `db.query(ACL)` calls are not wrapped in any
`try/except`, so when the store is unreachable (`db = Except.error`)
the exception propagates to the caller.  Only the cache read is
protected in the source. -/
def hasAccessExc (cached : Option Bool) (db : Except Unit (List ACL))
    (u : User) (resource_type : String) (resource_id : Int)
    (permission : PermissionType) : Except Unit Bool :=
  match cached with
  | some b => .ok b
  | none =>
    match db with
    | .error e => .error e
    | .ok rules => .ok (evalRules rules u resource_type resource_id permission)

/-- `AccessService.grant_access`: builds an `ACL` row with
`effect=ALLOW` from the keyword arguments and inserts it — there is no
validation of how many of the six subject-matcher attributes are
populated.  Returns the new store contents and the created rule. -/
def grantAccess (rules : List ACL) (resource_type : String)
    (resource_id : Int) (permission : PermissionType)
    (user_id : Option Int) (role : Option UserRole)
    (department : Option String) (position : Option String)
    (location : Option String) (object_id : Option Int)
    (created_by : Option Int) (description : Option String) :
    List ACL × ACL :=
  let acl_rule : ACL :=
    { resource_type := resource_type
      resource_id := resource_id
      user_id := user_id
      role := role
      department := department
      position := position
      location := location
      object_id := object_id
      permission := permission
      effect := ACLEffect.allow
      created_by := created_by
      description := description }
  (rules ++ [acl_rule], acl_rule)

/-- `db.query(User).filter_by(id=user_id).first()`. -/
def findUser (users : List User) (uid : Int) : Option User :=
  users.find? (fun u => u.id == uid)

/-- `AccessService.get_user_permissions`: looks the user up (empty list
when absent), unions the permissions of all matching ALLOW rows, then
discards every permission that also appears on a matching DENY row.
The Python `set` is modelled by a list; membership is what the theorems
speak about. -/
def getUserPermissions (users : List User) (rules : List ACL)
    (user_id : Int) (resource_type : String) (resource_id : Int) :
    List PermissionType :=
  match findUser users user_id with
  | none => []
  | some user =>
    let allowPerms :=
      (rules.filter (fun e =>
        e.resource_type == resource_type && e.resource_id == resource_id
          && e.effect == ACLEffect.allow
          && subjectOr user_id user e)).map (·.permission)
    let denyPerms :=
      (rules.filter (fun e =>
        e.resource_type == resource_type && e.resource_id == resource_id
          && e.effect == ACLEffect.deny
          && subjectOr user_id user e)).map (·.permission)
    allowPerms.filter (fun p => !(denyPerms.contains p))

/-! ## Objects module (`modules/objects/models.py`, `schemas.py`,
`service.py`) -/

/-- `DEPARTMENT_SECTION_MAP` from `modules/objects/models.py`, with the
`DocumentSection` enum flattened to its `.value` strings (the service
only ever uses `auto_section.value`). -/
def departmentSectionMap : String → Option String
  | "Технический отдел" => some "technical"
  | "Бухгалтерия" => some "accounting"
  | "Охрана труда" => some "safety"
  | "Юридический отдел" => some "legal"
  | "Отдел кадров" => some "hr"
  | _ => none

/-- Python truthiness of the `sections_access` value as tested by
`if not self.sections_access:` — both `None` and `[]` are falsy. -/
def sectionsFalsy : Option (List String) → Bool
  | none => true
  | some [] => true
  | some (_ :: _) => false

/-- `ObjectAccess.has_section_access` from `modules/objects/models.py`.
The empty/null check comes first in the source; the owner/admin
shortcut is only reached when `sections_access` is non-empty. -/
def hasSectionAccess (r : ObjectAccess) (sectionName : String) : Bool :=
  if sectionsFalsy r.sections_access then
    sectionName == "general"
  else if r.role == ObjectAccessRole.owner || r.role == ObjectAccessRole.admin then
    true
  else
    (r.sections_access.getD []).contains sectionName

/-- `ObjectAccessCreate.validate_sections` from
`modules/objects/schemas.py`: append `"general"` when absent. -/
def validateSectionsCreate (v : List String) : List String :=
  if v.contains "general" then v else v ++ ["general"]

/-- `ObjectAccessUpdate.validate_sections` from
`modules/objects/schemas.py`: `if v and "general" not in v:
v.append("general")` — `None` and `[]` pass through unchanged. -/
def validateSectionsUpdate : Option (List String) → Option (List String)
  | none => none
  | some v => if !v.isEmpty && !v.contains "general" then some (v ++ ["general"]) else some v

/-- The payload of `ObjectAccessCreate` (`modules/objects/schemas.py`);
`sections_access` here is the raw caller input, the validator is applied
where the request is parsed. -/
structure ObjectAccessCreate where
  user_id : Int
  role : ObjectAccessRole := .viewer
  sections_access : List String := ["general"]
deriving DecidableEq, Repr

/-- The payload of `ObjectAccessUpdate` (`modules/objects/schemas.py`),
again with raw caller input. -/
structure ObjectAccessUpdate where
  role : Option ObjectAccessRole := none
  sections_access : Option (List String) := none
deriving DecidableEq, Repr

/-- The database tables touched by `ObjectService`. -/
structure ObjectsDB where
  objects : List ObjectRow
  users : List User
  accesses : List ObjectAccess
  acls : List ACL
deriving DecidableEq, Repr

/-- The distinct `HTTPException`s raised by the `ObjectService`
operations under verification. -/
inductive ObjectServiceError where
  | objectNotFound
  | forbidden
  | accessAlreadyExists
  | userNotFound
  | accessNotFound
  | ownerUpdateForbidden
  | ownerRevokeForbidden
deriving DecidableEq, Repr

/-- `db.query(Object).filter(Object.id == object_id).first()`. -/
def findObject (objects : List ObjectRow) (oid : Int) : Option ObjectRow :=
  objects.find? (fun o => o.id == oid)

/-- `db.query(ObjectAccess).filter(object_id == ..., user_id == ...).first()`. -/
def findObjectAccess (accesses : List ObjectAccess) (oid uid : Int) :
    Option ObjectAccess :=
  accesses.find? (fun a => a.object_id == oid && a.user_id == uid)

/-- `ObjectService.can_manage_access`: object creator, global admin, or
owner/admin `ObjectAccess` row.  The fourth arm — the generic ACL check
— is constantly `false` in this repository: the call-time
`from modules.access.models import PermissionType` raises `ImportError`
(`PermissionType` is defined only in `modules/access/models_sql.py`;
`models.py` holds pydantic schemas and exports no such name), and the
`except ImportError` handler returns `False` before
`AccessService.has_access` is ever reached. -/
def canManageAccess (db : ObjectsDB) (user : User) (oid : Int) : Bool :=
  match findObject db.objects oid with
  | none => false
  | some obj =>
    obj.created_by == user.id
      || user.role == UserRole.admin
      || db.accesses.any (fun a => a.object_id == oid && a.user_id == user.id
          && (a.role == ObjectAccessRole.owner || a.role == ObjectAccessRole.admin))
      || false

/-- The auto-section derivation of `ObjectService.grant_access`:
`target_user.department_rel and target_user.department_rel.name`
guards against a missing relation and a falsy (empty) name, then
`DEPARTMENT_SECTION_MAP.get(...)`. -/
def deptAutoSection : Option String → Option String
  | none => none
  | some n => if n == "" then none else departmentSectionMap n

/-- `ObjectService.grant_access` composed with the pydantic validation
of its `ObjectAccessCreate` payload.  Errors carry the (unchanged)
database; success returns the new database and the created record. -/
def grantObjectAccess (db : ObjectsDB) (object_id : Int)
    (data : ObjectAccessCreate) (user : User) :
    Except (ObjectServiceError × ObjectsDB) (ObjectsDB × ObjectAccess) :=
  let dataSections := validateSectionsCreate data.sections_access
  match findObject db.objects object_id with
  | none => .error (.objectNotFound, db)
  | some _obj =>
    if !canManageAccess db user object_id then
      .error (.forbidden, db)
    else if (findObjectAccess db.accesses object_id data.user_id).isSome then
      .error (.accessAlreadyExists, db)
    else
      match findUser db.users data.user_id with
      | none => .error (.userNotFound, db)
      | some target_user =>
        let sections :=
          match deptAutoSection target_user.departmentName with
          | some auto =>
            if dataSections.contains auto then dataSections
            else dataSections ++ [auto]
          | none => dataSections
        let access : ObjectAccess :=
          { object_id := object_id
            user_id := data.user_id
            role := data.role
            sections_access := some sections
            granted_by := some user.id }
        .ok ({ db with accesses := db.accesses ++ [access] }, access)

/-- Replace the first `(object_id, user_id)` row by `updated`
(the ORM mutates the row returned by `.first()`). -/
def replaceFirstAccess (accesses : List ObjectAccess) (oid uid : Int)
    (updated : ObjectAccess) : List ObjectAccess :=
  match accesses with
  | [] => []
  | a :: rest =>
    if a.object_id == oid && a.user_id == uid then updated :: rest
    else a :: replaceFirstAccess rest oid uid updated

/-- Delete the first `(object_id, user_id)` row (`db.delete(...)`). -/
def removeFirstAccess (accesses : List ObjectAccess) (oid uid : Int) :
    List ObjectAccess :=
  match accesses with
  | [] => []
  | a :: rest =>
    if a.object_id == oid && a.user_id == uid then rest
    else a :: removeFirstAccess rest oid uid

/-- `ObjectService.update_access` composed with the pydantic validation
of its `ObjectAccessUpdate` payload.  `if data.role:` keeps the stored
role when the field is `None` (every role value is a non-empty string,
hence truthy); `if data.sections_access:` keeps the stored list when
the field is `None` **or** the empty list (both falsy). -/
def updateObjectAccess (db : ObjectsDB) (object_id user_id : Int)
    (data : ObjectAccessUpdate) (current_user : User) :
    Except (ObjectServiceError × ObjectsDB) (ObjectsDB × ObjectAccess) :=
  let dataSections := validateSectionsUpdate data.sections_access
  match findObject db.objects object_id with
  | none => .error (.objectNotFound, db)
  | some obj =>
    if obj.created_by != current_user.id && current_user.role != UserRole.admin then
      .error (.forbidden, db)
    else
      match findObjectAccess db.accesses object_id user_id with
      | none => .error (.accessNotFound, db)
      | some access =>
        if access.role == ObjectAccessRole.owner then
          .error (.ownerUpdateForbidden, db)
        else
          let newRole :=
            match data.role with
            | some r => r
            | none => access.role
          let newSections :=
            match dataSections with
            | some (s :: rest) => some (s :: rest)
            | _ => access.sections_access
          let updated := { access with role := newRole, sections_access := newSections }
          .ok ({ db with
                  accesses := replaceFirstAccess db.accesses object_id user_id updated },
               updated)

/-- `ObjectService.revoke_access`: the caller needs an owner/admin
`ObjectAccess` row on the object or the global admin role; the target
row must exist and not be the OWNER record; on success the row is
deleted (hard delete). -/
def revokeObjectAccess (db : ObjectsDB) (object_id user_id : Int)
    (current_user : User) :
    Except (ObjectServiceError × ObjectsDB) ObjectsDB :=
  let callerAccess := db.accesses.find? (fun a =>
    a.object_id == object_id && a.user_id == current_user.id
      && (a.role == ObjectAccessRole.admin || a.role == ObjectAccessRole.owner))
  if callerAccess.isNone && current_user.role != UserRole.admin then
    .error (.forbidden, db)
  else
    match findObjectAccess db.accesses object_id user_id with
    | none => .error (.accessNotFound, db)
    | some target_access =>
      if target_access.role == ObjectAccessRole.owner then
        .error (.ownerRevokeForbidden, db)
      else
        .ok { db with accesses := removeFirstAccess db.accesses object_id user_id }

/-! ### Concrete instances used by the witness theorems -/

/-- A database whose object 1 (created by user 10) has user 5 as its
OWNER access record. -/
def ownerDB : ObjectsDB :=
  { objects := [{ id := 1, created_by := 10 }]
    users := []
    accesses := [{ object_id := 1, user_id := 5, role := .owner,
                   sections_access := some ["general"] }]
    acls := [] }

/-- A global admin caller. -/
def adminCaller : User := { id := 10, role := .admin }

/-- A database for exercising `grant_access`: object 1 created by user
10, target user 9 in the accounting department, no accesses yet. -/
def grantDB : ObjectsDB :=
  { objects := [{ id := 1, created_by := 10 }]
    users := [{ id := 9, role := .employee, departmentName := some "Бухгалтерия" }]
    accesses := []
    acls := [] }

/-- The creator of object 1 in `grantDB` / `frameDB`. -/
def creatorCaller : User := { id := 10, role := .employee }

/-- A database for exercising the `update_access` frame property:
object 1 created by user 10, a VIEWER record for user 9. -/
def frameDB : ObjectsDB :=
  { objects := [{ id := 1, created_by := 10 }]
    users := []
    accesses := [{ object_id := 1, user_id := 9, role := .viewer,
                   sections_access := some ["general"] }]
    acls := [] }

end EmployeeCabinet

namespace EmployeeCabinet

/-! ## Theorems for the access evaluator -/

/-- **C1** (deny precedence): when the cache does not answer, if the
rule store contains a DENY row and an ALLOW row both matching the
subject for the given resource and permission, `has_access` returns
`false` — the DENY query runs first and short-circuits. -/
theorem c1_deny_precedence (cached : Option Bool) (rules : List ACL)
    (u : User) (rt : String) (rid : Int) (p : PermissionType)
    (hc : cached = none)
    (hdeny : ∃ d ∈ rules, denyFilter u rt rid p d = true)
    (_hallow : ∃ a ∈ rules, allowFilter u rt rid p a = true) :
    hasAccess cached rules u rt rid p = false := by
  subst hc
  obtain ⟨d, hd, hdf⟩ := hdeny
  have hany : rules.any (denyFilter u rt rid p) = true :=
    List.any_eq_true.mpr ⟨d, hd, hdf⟩
  simp [hasAccess, evalRules, hany]

/-- Witness for C1: a store holding one matching ALLOW row (by role)
and one matching DENY row (by user id) for user 7 on
`("object", 42, READ)` yields `false`. -/
theorem c1_deny_precedence_witness :
    hasAccess none
      [ { resource_type := "object", resource_id := 42, user_id := none,
          role := some .engineer, department := none, position := none,
          location := none, object_id := none,
          permission := .read, effect := .allow },
        { resource_type := "object", resource_id := 42, user_id := some 7,
          role := none, department := none, position := none,
          location := none, object_id := none,
          permission := .read, effect := .deny } ]
      { id := 7, role := .engineer } "object" 42 .read = false :=
  c1_deny_precedence none _ _ _ _ _ rfl
    ⟨{ resource_type := "object", resource_id := 42, user_id := some 7,
       role := none, department := none, position := none,
       location := none, object_id := none,
       permission := .read, effect := .deny },
     by decide, by decide⟩
    ⟨{ resource_type := "object", resource_id := 42, user_id := none,
       role := some .engineer, department := none, position := none,
       location := none, object_id := none,
       permission := .read, effect := .allow },
     by decide, by decide⟩

/-- **C2** (fail-closed, violated): `has_access` wraps no `try/except`
around the rule-store queries, so when the store is unreachable the
exception propagates to the caller instead of the claimed `false`.
Evaluated here at a concrete input with the store failing. -/
theorem c2_store_failure_propagates :
    hasAccessExc none (Except.error ()) { id := 7, role := .employee }
      "object" 42 .read = Except.error () := rfl

/-- **C4** (role hierarchy, second half violated): with the single
ALLOW row `role=employee`, an admin subject gets access (as claimed);
but with the single ALLOW row `role=admin`, an employee subject whose
department/position/location/object_id do not match the row *also* gets
access, because the row's `department` column is NULL, the ORM `User`
has no `department` attribute, and `ACL.department == None` compiles to
`department IS NULL` — which holds.  The claim says this second call
returns `false`. -/
theorem c4_role_hierarchy_divergence :
    hasAccess none
      [ { resource_type := "object", resource_id := 42, user_id := none,
          role := some .employee, department := none, position := none,
          location := none, object_id := none,
          permission := .read, effect := .allow } ]
      { id := 1, role := .admin, position := some "Director",
        location := some "HQ", object_id := some 5 } "object" 42 .read
      = true
    ∧ hasAccess none
      [ { resource_type := "object", resource_id := 42, user_id := none,
          role := some .admin, department := none, position := none,
          location := none, object_id := none,
          permission := .read, effect := .allow } ]
      { id := 8, role := .employee, position := some "Welder",
        location := some "Site 3", object_id := some 5 } "object" 42 .read
      = true := by decide

/-- **C5** counterexample: a `grant_access` call populating *zero* of
the six subject-matcher attributes is not rejected — it inserts a row
into an initially empty store, so the store is changed. -/
theorem c5_no_matcher_validation_counterexample :
    (grantAccess [] "object" 1 .read none none none none none none
      none none).1 ≠ [] := by decide

/-- **C5** amended: `grant_access` performs no subject-matcher
validation at all; every call — whatever subset of the six matcher
attributes is populated — appends exactly one new ALLOW row built from
its arguments to the store. -/
theorem c5_grant_always_inserts (rules : List ACL) (rt : String)
    (rid : Int) (p : PermissionType) (uid : Option Int)
    (role : Option UserRole) (dep pos loc : Option String)
    (oid cb : Option Int) (desc : Option String) :
    (grantAccess rules rt rid p uid role dep pos loc oid cb desc).1
      = rules ++ [(grantAccess rules rt rid p uid role dep pos loc oid cb desc).2]
    ∧ (grantAccess rules rt rid p uid role dep pos loc oid cb desc).2.effect
      = ACLEffect.allow := ⟨rfl, rfl⟩

/-- **C6** (`get_user_permissions` characterization): for an existing
user, a permission is in the returned collection exactly when some
ALLOW row on the resource matches the subject with that permission and
no DENY row on the resource matches the subject with that permission. -/
theorem c6_get_user_permissions_characterization (users : List User)
    (rules : List ACL) (uid : Int) (rt : String) (rid : Int) (u : User)
    (hfind : findUser users uid = some u) (p : PermissionType) :
    p ∈ getUserPermissions users rules uid rt rid ↔
      ((∃ e ∈ rules, e.resource_type = rt ∧ e.resource_id = rid
          ∧ e.effect = ACLEffect.allow ∧ subjectOr uid u e = true
          ∧ e.permission = p)
        ∧ ¬(∃ e ∈ rules, e.resource_type = rt ∧ e.resource_id = rid
          ∧ e.effect = ACLEffect.deny ∧ subjectOr uid u e = true
          ∧ e.permission = p)) := by
  simp only [getUserPermissions, hfind, List.mem_filter, List.mem_map,
    Bool.not_eq_true', Bool.and_eq_true, beq_iff_eq]
  constructor
  · rintro ⟨⟨e, ⟨he, ⟨⟨hrt, hrid⟩, heff⟩, hsub⟩, hperm⟩, hno⟩
    refine ⟨⟨e, he, hrt, hrid, heff, hsub, hperm⟩, ?_⟩
    rintro ⟨d, hd, hdrt, hdrid, hdeff, hdsub, hdperm⟩
    have hmem : p ∈ (rules.filter (fun e =>
        e.resource_type == rt && e.resource_id == rid
          && e.effect == ACLEffect.deny
          && subjectOr uid u e)).map (·.permission) := by
      refine List.mem_map.mpr ⟨d, List.mem_filter.mpr ⟨hd, ?_⟩, hdperm⟩
      simp [hdrt, hdrid, hdeff, hdsub]
    have htrue : List.elem p ((rules.filter (fun e =>
        e.resource_type == rt && e.resource_id == rid
          && e.effect == ACLEffect.deny
          && subjectOr uid u e)).map (·.permission)) = true :=
      List.elem_iff.mpr hmem
    have hfalse : List.elem p ((rules.filter (fun e =>
        e.resource_type == rt && e.resource_id == rid
          && e.effect == ACLEffect.deny
          && subjectOr uid u e)).map (·.permission)) = false := hno
    rw [htrue] at hfalse
    simp at hfalse
  · rintro ⟨⟨e, he, hrt, hrid, heff, hsub, hperm⟩, hno⟩
    refine ⟨⟨e, ⟨he, ⟨⟨hrt, hrid⟩, heff⟩, hsub⟩, hperm⟩, ?_⟩
    rw [Bool.eq_false_iff]
    intro hcon
    have hmem : p ∈ (rules.filter (fun e =>
        e.resource_type == rt && e.resource_id == rid
          && e.effect == ACLEffect.deny
          && subjectOr uid u e)).map (·.permission) :=
      List.elem_iff.mp hcon
    rcases List.mem_map.mp hmem with ⟨d, hdmem, hdperm⟩
    rcases List.mem_filter.mp hdmem with ⟨hd, hdpred⟩
    simp only [Bool.and_eq_true, beq_iff_eq] at hdpred
    exact hno ⟨d, hd, hdpred.1.1.1, hdpred.1.1.2, hdpred.1.2, hdpred.2, hdperm⟩

/-- Witness for C6: user 7 (engineer) with a single matching ALLOW row
by role and no DENY row has READ among the returned permissions. -/
theorem c6_get_user_permissions_witness :
    PermissionType.read ∈ getUserPermissions
      [ { id := 7, role := .engineer } ]
      [ { resource_type := "object", resource_id := 42, user_id := none,
          role := some .engineer, department := none, position := none,
          location := none, object_id := none,
          permission := .read, effect := .allow } ] 7 "object" 42 :=
  (c6_get_user_permissions_characterization
      [ { id := 7, role := .engineer } ]
      [ { resource_type := "object", resource_id := 42, user_id := none,
          role := some .engineer, department := none, position := none,
          location := none, object_id := none,
          permission := .read, effect := .allow } ] 7 "object" 42
      { id := 7, role := .engineer } rfl .read).mpr (by decide)

/-! ## Theorems for the object-access gate -/

/-- **C3** counterexample: an OWNER record whose `sections_access` is
null is *not* granted every section — `has_section_access` tests
`if not self.sections_access` before the owner/admin shortcut and
answers `section == "general"`, so `"technical"` is refused. -/
theorem c3_owner_null_sections_counterexample :
    hasSectionAccess
      { object_id := 1, user_id := 2, role := .owner, sections_access := none }
      "technical" = false := by decide

/-- **C3** amended: for an OWNER or ADMIN record the section check
returns `true` for every section *provided* `sections_access` is
neither null nor the empty list; with a null/empty list the method
returns `section == "general"` regardless of role. -/
theorem c3_owner_admin_bypass (r : ObjectAccess) (s : String)
    (hrole : r.role = ObjectAccessRole.owner ∨ r.role = ObjectAccessRole.admin)
    (hsec : sectionsFalsy r.sections_access = false) :
    hasSectionAccess r s = true := by
  unfold hasSectionAccess
  rw [hsec]
  rcases hrole with h | h <;> simp [h]

/-- Witness for the amended C3: an OWNER record with
`sections_access = ["general"]` passes the check for `"legal"`. -/
theorem c3_owner_admin_bypass_witness :
    hasSectionAccess
      { object_id := 1, user_id := 2, role := .owner,
        sections_access := some ["general"] } "legal" = true :=
  c3_owner_admin_bypass _ _ (Or.inl rfl) rfl

/-- **C9**: a VIEWER record with null `sections_access` passes the
section check exactly for `"general"`. -/
theorem c9_viewer_null_sections (r : ObjectAccess) (s : String)
    (_hrole : r.role = ObjectAccessRole.viewer)
    (hsec : r.sections_access = none) :
    (hasSectionAccess r s = true ↔ s = "general") := by
  simp [hasSectionAccess, hsec, sectionsFalsy]

/-- Witness for C9: the `"general"` direction at a concrete record. -/
theorem c9_viewer_null_sections_witness :
    hasSectionAccess
      { object_id := 1, user_id := 2, role := .viewer, sections_access := none }
      "general" = true :=
  (c9_viewer_null_sections _ _ rfl rfl).mpr rfl

/-- **C7** (owner record protection): when the `(object, user)` access
record has role OWNER, `update_access` and `revoke_access` always
return an error and leave the database unchanged — and whenever the
caller passes the respective permission gate, the error is precisely
the dedicated owner-protection one. -/
theorem c7_owner_record_protected (db : ObjectsDB) (oid uid : Int)
    (data : ObjectAccessUpdate) (cu : User) (rec : ObjectAccess)
    (hfind : findObjectAccess db.accesses oid uid = some rec)
    (hrole : rec.role = ObjectAccessRole.owner) :
    (∃ e, updateObjectAccess db oid uid data cu = .error (e, db))
    ∧ (∃ e, revokeObjectAccess db oid uid cu = .error (e, db))
    ∧ (∀ obj, findObject db.objects oid = some obj →
        (obj.created_by = cu.id ∨ cu.role = UserRole.admin) →
        updateObjectAccess db oid uid data cu = .error (.ownerUpdateForbidden, db))
    ∧ ((db.accesses.find? (fun a =>
          a.object_id == oid && a.user_id == cu.id
            && (a.role == ObjectAccessRole.admin || a.role == ObjectAccessRole.owner))).isSome
            = true
        ∨ cu.role = UserRole.admin →
        revokeObjectAccess db oid uid cu = .error (.ownerRevokeForbidden, db)) := by
  refine ⟨?_, ?_, ?_, ?_⟩
  · rcases hobj : findObject db.objects oid with _ | obj
    · exact ⟨.objectNotFound, by simp [updateObjectAccess, hobj]⟩
    · by_cases hperm : (obj.created_by != cu.id && cu.role != UserRole.admin) = true
      · exact ⟨.forbidden, by simp [updateObjectAccess, hobj, hperm]⟩
      · exact ⟨.ownerUpdateForbidden, by
          simp [updateObjectAccess, hobj, hperm, hfind, hrole]⟩
  · by_cases hcal : ((db.accesses.find? (fun a =>
        a.object_id == oid && a.user_id == cu.id
          && (a.role == ObjectAccessRole.admin || a.role == ObjectAccessRole.owner))).isNone
        && cu.role != UserRole.admin) = true
    · exact ⟨.forbidden, by simp [revokeObjectAccess, hcal]⟩
    · exact ⟨.ownerRevokeForbidden, by
        simp [revokeObjectAccess, hcal, hfind, hrole]⟩
  · intro obj hobj hauth
    rcases hauth with h | h <;>
      simp [updateObjectAccess, hobj, h, hfind, hrole]
  · intro h
    rcases h with h | h
    · cases hca : db.accesses.find? (fun a =>
        a.object_id == oid && a.user_id == cu.id
          && (a.role == ObjectAccessRole.admin || a.role == ObjectAccessRole.owner)) with
      | none => rw [hca] at h; simp at h
      | some v => simp [revokeObjectAccess, hca, hfind, hrole]
    · simp [revokeObjectAccess, h, hfind, hrole]

/-- Witness for C7: object 1's OWNER record (user 5) in `ownerDB`
cannot be updated or revoked by a global admin. -/
theorem c7_owner_record_protected_witness :
    updateObjectAccess ownerDB 1 5 {} adminCaller
        = .error (.ownerUpdateForbidden, ownerDB)
    ∧ revokeObjectAccess ownerDB 1 5 adminCaller
        = .error (.ownerRevokeForbidden, ownerDB) :=
  ⟨(c7_owner_record_protected ownerDB 1 5 {} adminCaller
      { object_id := 1, user_id := 5, role := .owner,
        sections_access := some ["general"] } rfl rfl).2.2.1
      { id := 1, created_by := 10 } rfl (Or.inr rfl),
   (c7_owner_record_protected ownerDB 1 5 {} adminCaller
      { object_id := 1, user_id := 5, role := .owner,
        sections_access := some ["general"] } rfl rfl).2.2.2 (Or.inr rfl)⟩

/-- `"general"` always survives the create-validator. -/
theorem general_mem_validateSectionsCreate (v : List String) :
    "general" ∈ validateSectionsCreate v := by
  unfold validateSectionsCreate
  by_cases h : v.contains "general" = true
  · rw [if_pos h]; exact List.elem_iff.mp h
  · rw [if_neg h]; exact List.mem_append.mpr (Or.inr (List.mem_singleton.mpr rfl))

/-- **C8**: every successful `grant_access` stores a record whose
`sections_access` contains `"general"`, and also contains the section
derived from the target user's department whenever that department maps
to a known section. -/
theorem c8_grant_sections (db : ObjectsDB) (oid : Int)
    (data : ObjectAccessCreate) (user : User) (db' : ObjectsDB)
    (rec : ObjectAccess)
    (hok : grantObjectAccess db oid data user = .ok (db', rec)) :
    "general" ∈ rec.sections_access.getD []
    ∧ ∀ tu sec, findUser db.users data.user_id = some tu →
        deptAutoSection tu.departmentName = some sec →
        sec ∈ rec.sections_access.getD [] := by
  unfold grantObjectAccess at hok
  rcases hobj : findObject db.objects oid with _ | obj
  · rw [hobj] at hok; exact absurd hok (by simp)
  rw [hobj] at hok
  by_cases hcm : canManageAccess db user oid = true
  swap
  · simp only [Bool.not_eq_true] at hcm
    simp [hcm] at hok
  simp only [hcm, Bool.not_true, if_neg] at hok
  by_cases hex : (findObjectAccess db.accesses oid data.user_id).isSome = true
  · simp [hex] at hok
  simp only [Bool.not_eq_true] at hex
  simp only [hex] at hok
  rcases hu : findUser db.users data.user_id with _ | tu0
  · rw [hu] at hok; simp at hok
  rw [hu] at hok
  simp only [if_false, Bool.false_eq_true, reduceIte] at hok
  rcases hda : deptAutoSection tu0.departmentName with _ | auto
  all_goals rw [hda] at hok
  · simp only [Except.ok.injEq, Prod.mk.injEq] at hok
    obtain ⟨-, hrec⟩ := hok
    subst hrec
    refine ⟨general_mem_validateSectionsCreate _, ?_⟩
    intro tu sec htu hsec
    obtain rfl : tu0 = tu := Option.some.inj htu
    rw [hda] at hsec
    exact absurd hsec (by simp)
  · simp only [Except.ok.injEq, Prod.mk.injEq] at hok
    obtain ⟨-, hrec⟩ := hok
    subst hrec
    by_cases hc : (validateSectionsCreate data.sections_access).contains auto = true
    · simp only [hc, if_true]
      refine ⟨general_mem_validateSectionsCreate _, ?_⟩
      intro tu sec htu hsec
      obtain rfl : tu0 = tu := Option.some.inj htu
      rw [hda] at hsec
      obtain rfl : auto = sec := Option.some.inj hsec
      exact List.elem_iff.mp hc
    · simp only [hc, if_false]
      refine ⟨List.mem_append.mpr (Or.inl (general_mem_validateSectionsCreate _)), ?_⟩
      intro tu sec htu hsec
      obtain rfl : tu0 = tu := Option.some.inj htu
      rw [hda] at hsec
      obtain rfl : auto = sec := Option.some.inj hsec
      exact List.mem_append.mpr (Or.inr (List.mem_singleton.mpr rfl))

/-- Witness for C8: granting VIEWER access on object 1 to user 9 (in
the accounting department) with the caller-supplied list
`["technical"]` stores both `"general"` and `"accounting"`. -/
theorem c8_grant_sections_witness :
    "general" ∈ (some ["technical", "general", "accounting"] :
        Option (List String)).getD []
    ∧ "accounting" ∈ (some ["technical", "general", "accounting"] :
        Option (List String)).getD [] :=
  ⟨(c8_grant_sections grantDB 1
      { user_id := 9, role := .viewer, sections_access := ["technical"] }
      creatorCaller
      { grantDB with accesses :=
          [{ object_id := 1, user_id := 9, role := .viewer,
             sections_access := some ["technical", "general", "accounting"],
             granted_by := some 10 }] }
      { object_id := 1, user_id := 9, role := .viewer,
        sections_access := some ["technical", "general", "accounting"],
        granted_by := some 10 }
      rfl).1,
   (c8_grant_sections grantDB 1
      { user_id := 9, role := .viewer, sections_access := ["technical"] }
      creatorCaller
      { grantDB with accesses :=
          [{ object_id := 1, user_id := 9, role := .viewer,
             sections_access := some ["technical", "general", "accounting"],
             granted_by := some 10 }] }
      { object_id := 1, user_id := 9, role := .viewer,
        sections_access := some ["technical", "general", "accounting"],
        granted_by := some 10 }
      rfl).2
      { id := 9, role := .employee, departmentName := some "Бухгалтерия" }
      "accounting" (by decide) (by decide)⟩

/-- **C10** (update frame property): a successful `update_access` on a
non-OWNER record keeps the stored role when the payload's `role` is
`None`, keeps the stored `sections_access` when the payload's
`sections_access` is `None` or `[]`, and can never turn a non-empty
(or null) `sections_access` into the empty list. -/
theorem c10_update_frame (db : ObjectsDB) (oid uid : Int)
    (data : ObjectAccessUpdate) (cu : User) (rec : ObjectAccess)
    (db' : ObjectsDB) (rec' : ObjectAccess)
    (hfind : findObjectAccess db.accesses oid uid = some rec)
    (_hnotowner : rec.role ≠ ObjectAccessRole.owner)
    (hok : updateObjectAccess db oid uid data cu = .ok (db', rec')) :
    (data.role = none → rec'.role = rec.role)
    ∧ (data.sections_access = none ∨ data.sections_access = some [] →
        rec'.sections_access = rec.sections_access)
    ∧ (rec'.sections_access = some [] → rec.sections_access = some []) := by
  unfold updateObjectAccess at hok
  rcases hobj : findObject db.objects oid with _ | obj
  · rw [hobj] at hok; exact absurd hok (by simp)
  rw [hobj] at hok
  by_cases hperm : (obj.created_by != cu.id && cu.role != UserRole.admin) = true
  · simp [hperm] at hok
  simp only [Bool.not_eq_true] at hperm
  simp only [hperm, Bool.false_eq_true, reduceIte] at hok
  rw [hfind] at hok
  by_cases hro : (rec.role == ObjectAccessRole.owner) = true
  · simp [hro] at hok
  simp only [Bool.not_eq_true] at hro
  simp only [hro, Bool.false_eq_true, reduceIte, Except.ok.injEq,
    Prod.mk.injEq] at hok
  obtain ⟨-, hrec⟩ := hok
  subst hrec
  refine ⟨?_, ?_, ?_⟩
  · intro h; simp [h]
  · rintro (h | h) <;> simp [h, validateSectionsUpdate]
  · rcases hds : validateSectionsUpdate data.sections_access with _ | l
    · simp [hds]
    · rcases l with _ | ⟨s, rest⟩
      · simp [hds]
      · simp [hds]

/-- Witness for C10: updating user 9's VIEWER record on object 1 with
an empty payload leaves role and sections unchanged. -/
theorem c10_update_frame_witness :
    (({} : ObjectAccessUpdate).role = none →
      ObjectAccessRole.viewer = ObjectAccessRole.viewer)
    ∧ (({} : ObjectAccessUpdate).sections_access = none
        ∨ ({} : ObjectAccessUpdate).sections_access = some [] →
      (some ["general"] : Option (List String)) = some ["general"])
    ∧ ((some ["general"] : Option (List String)) = some [] →
      (some ["general"] : Option (List String)) = some []) :=
  c10_update_frame frameDB 1 9 {} creatorCaller
    { object_id := 1, user_id := 9, role := .viewer,
      sections_access := some ["general"] }
    frameDB
    { object_id := 1, user_id := 9, role := .viewer,
      sections_access := some ["general"] }
    rfl (by decide) rfl

end EmployeeCabinet
